import Mathlib

/-!
Verification development for the house-simulator repository: a heater-control
service (src/heater-service/server.py), a weather-lookup service
(src/weather-service/main.py) and a telemetry simulator
(src/temperature-simulator/telemetry.py).

Python floats are modelled as exact rationals; `round(x, d)` is modelled by
`pyRound`, rounding to the nearest multiple of `10 ^ (-d)` with ties going
to the even multiple (Python's documented tie rule).  Randomness
(`random.uniform`) is injected as an explicit parameter, the mutable
process-wide heater state is passed explicitly, and HTTP exceptions are
modelled with `Except`.
-/

namespace HouseSim

/-- Round a rational to the nearest integer, ties to the even integer
(the tie rule of Python's builtin `round`). -/
def roundHalfEven (q : ℚ) : ℤ :=
  let f := ⌊q⌋
  let r := q - (f : ℚ)
  if r < 1/2 then f
  else if 1/2 < r then f + 1
  else if f % 2 = 0 then f else f + 1

/-- Python's `round(q, d)` over exact rationals. -/
def pyRound (q : ℚ) (d : ℕ) : ℚ :=
  ((roundHalfEven (q * (10 : ℚ) ^ d) : ℤ) : ℚ) / (10 : ℚ) ^ d

theorem floor_le_roundHalfEven (q : ℚ) : ⌊q⌋ ≤ roundHalfEven q := by
  simp only [roundHalfEven]
  split_ifs <;> omega

theorem roundHalfEven_le_floor_add_one (q : ℚ) : roundHalfEven q ≤ ⌊q⌋ + 1 := by
  simp only [roundHalfEven]
  split_ifs <;> omega

theorem roundHalfEven_intCast (n : ℤ) : roundHalfEven (n : ℚ) = n := by
  unfold roundHalfEven
  simp

theorem intCast_le_pyRound {n : ℤ} {q : ℚ} (d : ℕ) (h : (n : ℚ) ≤ q) :
    (n : ℚ) ≤ pyRound q d := by
  unfold pyRound
  have hpow : (0 : ℚ) < (10 : ℚ) ^ d := by positivity
  have h1 : (n : ℚ) * (10 : ℚ) ^ d ≤ q * (10 : ℚ) ^ d := by
    exact mul_le_mul_of_nonneg_right h (le_of_lt hpow)
  have h2 : ((n * 10 ^ d : ℤ) : ℚ) ≤ q * (10 : ℚ) ^ d := by push_cast; exact h1
  have h3 : n * 10 ^ d ≤ ⌊q * (10 : ℚ) ^ d⌋ := Int.le_floor.mpr h2
  have h4 : n * 10 ^ d ≤ roundHalfEven (q * (10 : ℚ) ^ d) :=
    le_trans h3 (floor_le_roundHalfEven _)
  rw [le_div_iff hpow]
  calc (n : ℚ) * (10 : ℚ) ^ d = ((n * 10 ^ d : ℤ) : ℚ) := by push_cast; ring
    _ ≤ ((roundHalfEven (q * (10 : ℚ) ^ d) : ℤ) : ℚ) := by exact_mod_cast h4

theorem pyRound_le_intCast {n : ℤ} {q : ℚ} (d : ℕ) (h : q < (n : ℚ)) :
    pyRound q d ≤ (n : ℚ) := by
  unfold pyRound
  have hpow : (0 : ℚ) < (10 : ℚ) ^ d := by positivity
  have h1 : q * (10 : ℚ) ^ d < (n : ℚ) * (10 : ℚ) ^ d :=
    mul_lt_mul_of_pos_right h hpow
  have h2 : q * (10 : ℚ) ^ d < ((n * 10 ^ d : ℤ) : ℚ) := by push_cast; exact h1
  have h3 : ⌊q * (10 : ℚ) ^ d⌋ < n * 10 ^ d := Int.floor_lt.mpr h2
  have h4 : roundHalfEven (q * (10 : ℚ) ^ d) ≤ n * 10 ^ d :=
    le_trans (roundHalfEven_le_floor_add_one _) (by omega)
  rw [div_le_iff hpow]
  calc ((roundHalfEven (q * (10 : ℚ) ^ d) : ℤ) : ℚ)
      ≤ ((n * 10 ^ d : ℤ) : ℚ) := by exact_mod_cast h4
    _ = (n : ℚ) * (10 : ℚ) ^ d := by push_cast; ring

theorem pyRound_eq_self {q : ℚ} {d : ℕ} (n : ℤ) (h : q * (10 : ℚ) ^ d = (n : ℚ)) :
    pyRound q d = q := by
  have hpow : (0 : ℚ) < (10 : ℚ) ^ d := by positivity
  unfold pyRound
  rw [h, roundHalfEven_intCast, ← h]
  field_simp

theorem pyRound_nonneg {q : ℚ} (d : ℕ) (h : 0 ≤ q) : 0 ≤ pyRound q d := by
  have := intCast_le_pyRound (n := 0) (q := q) d (by exact_mod_cast h)
  exact_mod_cast this

theorem pyRound_nonpos {q : ℚ} (d : ℕ) (h : q < 0) : pyRound q d ≤ 0 := by
  have := pyRound_le_intCast (n := 0) (q := q) d (by exact_mod_cast h)
  exact_mod_cast this

/-- Flooring at zero commutes with `pyRound`: the code rounds first and then
takes `max 0`, the spec describes flooring at zero and rounding; both give the
same value. -/
theorem max_zero_pyRound (q : ℚ) (d : ℕ) :
    max 0 (pyRound q d) = pyRound (max 0 q) d := by
  rcases le_or_lt 0 q with h | h
  · rw [max_eq_right h, max_eq_right (pyRound_nonneg d h)]
  · rw [max_eq_left (le_of_lt h), max_eq_left (pyRound_nonpos d h)]
    have : pyRound (0 : ℚ) d = 0 := by
      apply pyRound_eq_self 0
      simp
    simp [this]

/-! ## Heater service (src/heater-service/server.py)

The process-wide mutable dictionary `heater_state = {"setpoint": 20}` is
modelled by an explicitly passed integer; tool arguments that may fail the
`isinstance(..., int)` check are modelled by `PyValue`. -/

/-- A Python argument value: either an integer, or some non-integer value. -/
inductive PyValue where
  | int : ℤ → PyValue
  | other : String → PyValue
deriving DecidableEq

/-- Default setpoint in Celsius: `heater_state = {"setpoint": 20}`. -/
def initialSetpoint : ℤ := 20

/-- Result dictionary of `get_setpoint`. -/
structure GetSetpointResult where
  setpoint : ℤ
  unit : String
deriving DecidableEq

/-- `get_setpoint()`: reads the stored setpoint, no side effect. -/
def get_setpoint (s : ℤ) : GetSetpointResult :=
  { setpoint := s, unit := "celsius" }

/-- Result dictionary of `modify_setpoint`. -/
structure SetpointResult where
  previous_setpoint : ℤ
  new_setpoint : ℤ
  status : String
  unit : String
deriving DecidableEq

/-- `modify_setpoint(temperature)`: validates and mutates the setpoint.
Returns the response (or the raised `ValueError` message) together with the
stored setpoint after the call; a raise leaves the state untouched. -/
def modify_setpoint (s : ℤ) (temperature : PyValue) :
    Except String SetpointResult × ℤ :=
  match temperature with
  | .other _ => (.error "Temperature must be an integer", s)
  | .int t =>
    if ¬(8 ≤ t ∧ t ≤ 25) then
      (.error "Temperature must be between 8 and 25°C", s)
    else
      (.ok { previous_setpoint := s, new_setpoint := t,
             status := "updated", unit := "celsius" }, t)

/-- One item of the `daily_consumption` list. -/
structure DailyEntry where
  day : ℤ
  kwh : ℚ
deriving DecidableEq

/-- Result dictionary of `get_consumption`. -/
structure ConsumptionResult where
  days : ℤ
  daily_consumption : List DailyEntry
  total_kwh : ℚ
  average_kwh_per_day : ℚ
deriving DecidableEq

/-- The kWh value of one day: `kwh = round(setpoint * 1.2 + uniform(-5, 5), 2)`
then `kwh = max(0, kwh)`, with the `random.uniform(-5, 5)` draw injected
as `ε`. -/
def dailyKwh (setpoint : ℤ) (ε : ℚ) : ℚ :=
  let base_kwh : ℚ := (setpoint : ℚ) * (12/10)
  max 0 (pyRound (base_kwh + ε) 2)

/-- `get_consumption(days)`: validates, then builds the per-day list for day
indices `1 .. days` from the current setpoint, with the `random.uniform(-5, 5)`
draw of loop iteration `i` (0-based) injected as `noise i`. Reads but never
writes the heater state. -/
def get_consumption (s : ℤ) (days : PyValue) (noise : ℕ → ℚ) :
    Except String ConsumptionResult :=
  match days with
  | .other _ => .error "Days must be an integer"
  | .int d =>
    if d < 1 ∨ d > 365 then .error "Days must be between 1 and 365"
    else
      let daily_consumption :=
        (List.range d.toNat).map
          (fun i => { day := (i : ℤ) + 1, kwh := dailyKwh s (noise i) })
      let total_kwh := (daily_consumption.map (fun e => e.kwh)).sum
      .ok { days := d,
            daily_consumption := daily_consumption,
            total_kwh := pyRound total_kwh 2,
            average_kwh_per_day := pyRound (total_kwh / (d : ℚ)) 2 }

/-- One call against the heater service, for reasoning about the evolution of
the stored setpoint across call sequences. -/
inductive HeaterOp where
  | getSetpoint
  | modifySetpoint (temperature : PyValue)
  | getConsumption (days : PyValue)
deriving DecidableEq

/-- The stored setpoint after one call: only `modify_setpoint` writes it. -/
def heaterStep (s : ℤ) : HeaterOp → ℤ
  | .getSetpoint => s
  | .modifySetpoint t => (modify_setpoint s t).2
  | .getConsumption _ => s

/-- The stored setpoint after a sequence of calls starting from process
start-up. -/
def runHeater (ops : List HeaterOp) : ℤ :=
  ops.foldl heaterStep initialSetpoint

/-! ## Weather service (src/weather-service/main.py)

`EXPECTED_API_KEY = os.getenv("API_KEY", "")` is modelled by an `expected`
parameter (the configured server-side key, `""` when unconfigured); a raised
`HTTPException` carries its status code and detail. -/

/-- A FastAPI `HTTPException`, carrying status code and detail. -/
structure HTTPException where
  status_code : ℕ
  detail : String
deriving DecidableEq

/-- Body of a successful `/weather` response (HTTP 200). -/
structure WeatherResponse where
  location : String
  temperature : ℚ
  description : String
deriving DecidableEq

/-- `verify_api_key`: rejects with 500 when no server-side key is configured
(`EXPECTED_API_KEY` is empty, hence falsy), with 401 when the supplied
`X-API-Key` header differs from the configured key. -/
def verify_api_key (expected x_api_key : String) : Except HTTPException String :=
  if expected = "" then .error { status_code := 500, detail := "API key not configured" }
  else if x_api_key ≠ expected then .error { status_code := 401, detail := "Invalid API key" }
  else .ok x_api_key

/-- `POST /weather`: checks the key via `verify_api_key`, then returns the
echoed location, `round(random.uniform(-10.0, -4.0), 1)` (the draw injected
as `u`), and a fixed description.  `Except.ok` corresponds to HTTP 200. -/
def get_weather (expected x_api_key location : String) (u : ℚ) :
    Except HTTPException WeatherResponse :=
  match verify_api_key expected x_api_key with
  | .error e => .error e
  | .ok _ =>
    .ok { location := location,
          temperature := pyRound u 1,
          description := "Sunny and clear skies" }

/-! ## Telemetry simulator (src/temperature-simulator/telemetry.py)

The `random.uniform` draws, the UTC timestamp and the outcome of the external
Firehose `put_record` call are injected as parameters. -/

/-- Baseline configuration of one room. -/
structure RoomConfig where
  temp_base : ℚ
  humidity_base : ℚ
deriving DecidableEq

/-- `ROOMS`: the fixed room configurations, in insertion order of the Python
dict. -/
def ROOMS : List (String × RoomConfig) :=
  [("kitchen", { temp_base := 22, humidity_base := 50 }),
   ("livingroom", { temp_base := 215/10, humidity_base := 48 }),
   ("bedroom", { temp_base := 20, humidity_base := 52 })]

/-- One telemetry record. -/
structure Telemetry where
  room : String
  temperature : ℚ
  humidity : ℚ
  time_recorded : String
deriving DecidableEq

/-- `generate_telemetry(room_name, config)` with the `random.uniform(-2.0, 2.0)`
and `random.uniform(-5, 5)` draws injected as `εt`, `εh` and the current UTC
timestamp string injected as `now`. -/
def generate_telemetry (room_name : String) (config : RoomConfig)
    (εt εh : ℚ) (now : String) : Telemetry :=
  { room := room_name,
    temperature := pyRound (config.temp_base + εt) 1,
    humidity := pyRound (config.humidity_base + εh) 1,
    time_recorded := now }

/-- `send_to_firehose(record)` with the outcome of the external
`firehose.put_record` call injected: `Except.ok` is a normal return carrying
`response["RecordId"]`, `Except.error` is any raised exception.  The
`try/except` turns every exception into the return value `None`. -/
def send_to_firehose (putOutcome : Except String String) : Option String :=
  match putOutcome with
  | .ok recordId => some recordId
  | .error _ => none

/-- One iteration of the `while True` loop in `main`: for each room, generate
telemetry and send it, collecting each room's record together with the
per-room send outcome (`none` = logged failure).  `put` gives the injected
external outcome for each room, `draws` the two uniform draws. -/
def mainIteration (put : String → Except String String)
    (draws : String → ℚ × ℚ) (now : String) : List (Telemetry × Option String) :=
  ROOMS.map (fun rc =>
    let telemetry := generate_telemetry rc.1 rc.2 (draws rc.1).1 (draws rc.1).2 now
    (telemetry, send_to_firehose (put rc.1)))

/-! ## Claims about the heater service -/

/-- C1: for every integer t with 8 ≤ t ≤ 25, `modify_setpoint(t)` succeeds,
returns previous_setpoint = the setpoint stored before the call,
new_setpoint = t, status "updated" and unit "celsius", and a subsequent
`get_setpoint()` (which reads the stored setpoint) returns setpoint t. -/
theorem modify_setpoint_in_range_ok (s t : ℤ) (h8 : 8 ≤ t) (h25 : t ≤ 25) :
    modify_setpoint s (.int t) =
      (.ok { previous_setpoint := s, new_setpoint := t,
             status := "updated", unit := "celsius" }, t) ∧
    get_setpoint (modify_setpoint s (.int t)).2 =
      { setpoint := t, unit := "celsius" } := by
  have h : ¬¬(8 ≤ t ∧ t ≤ 25) := not_not.mpr ⟨h8, h25⟩
  constructor
  · simp [modify_setpoint, h]
  · simp [modify_setpoint, h, get_setpoint]

/-- Witness for C1: setting 15 from the default state 20. -/
theorem modify_setpoint_in_range_ok_witness :
    ((8 : ℤ) ≤ 15 ∧ (15 : ℤ) ≤ 25) ∧
    (modify_setpoint 20 (.int 15) =
      (.ok { previous_setpoint := 20, new_setpoint := 15,
             status := "updated", unit := "celsius" }, 15) ∧
     get_setpoint (modify_setpoint 20 (.int 15)).2 =
       { setpoint := 15, unit := "celsius" }) :=
  ⟨by decide, modify_setpoint_in_range_ok 20 15 (by decide) (by decide)⟩

/-- C2: `modify_setpoint(v)` raises a validation error iff v is not an
integer or v is an integer outside [8, 25]; on every error the stored
setpoint is unchanged. -/
theorem modify_setpoint_error_iff (s : ℤ) (v : PyValue) :
    ((∃ e, (modify_setpoint s v).1 = .error e) ↔
      (∀ t : ℤ, v ≠ .int t) ∨ (∃ t : ℤ, v = .int t ∧ ¬(8 ≤ t ∧ t ≤ 25))) ∧
    (∀ e, (modify_setpoint s v).1 = .error e → (modify_setpoint s v).2 = s) := by
  constructor
  · cases v with
    | int t =>
      by_cases h : 8 ≤ t ∧ t ≤ 25
      · simp [modify_setpoint, h]
      · simp [modify_setpoint, h]
        omega
    | other str => simp [modify_setpoint]
  · intro e he
    cases v with
    | int t =>
      simp only [modify_setpoint] at he ⊢
      split_ifs at he ⊢ with h
      · rfl
    | other str => rfl

/-- The stored setpoint stays in [8, 25] under any single call, provided it
was there before. -/
theorem heaterStep_range (s : ℤ) (op : HeaterOp) (h1 : 8 ≤ s) (h2 : s ≤ 25) :
    8 ≤ heaterStep s op ∧ heaterStep s op ≤ 25 := by
  cases op with
  | getSetpoint => exact ⟨h1, h2⟩
  | getConsumption d => exact ⟨h1, h2⟩
  | modifySetpoint t =>
    cases t with
    | other str => exact ⟨h1, h2⟩
    | int n =>
      simp only [heaterStep, modify_setpoint]
      split_ifs with h
      · exact ⟨h.1, h.2⟩
      · exact ⟨h1, h2⟩

/-- The range invariant propagates along any call sequence. -/
theorem foldl_heaterStep_range (ops : List HeaterOp) (s : ℤ)
    (h1 : 8 ≤ s) (h2 : s ≤ 25) :
    8 ≤ ops.foldl heaterStep s ∧ ops.foldl heaterStep s ≤ 25 := by
  induction ops generalizing s with
  | nil => exact ⟨h1, h2⟩
  | cons op rest ih =>
    have h := heaterStep_range s op h1 h2
    exact ih (heaterStep s op) h.1 h.2

/-- C9: the setpoint starts at 20; `get_setpoint` and `get_consumption`
never change it (only `modify_setpoint` writes it, per `heaterStep`); and
after any sequence of calls the stored setpoint is an integer in [8, 25]. -/
theorem heater_setpoint_invariant :
    runHeater [] = 20 ∧
    (∀ (s : ℤ) (d : PyValue),
      heaterStep s .getSetpoint = s ∧ heaterStep s (.getConsumption d) = s) ∧
    (∀ ops : List HeaterOp, 8 ≤ runHeater ops ∧ runHeater ops ≤ 25) := by
  refine ⟨rfl, fun s d => ⟨rfl, rfl⟩, fun ops => ?_⟩
  exact foldl_heaterStep_range ops initialSetpoint (by decide) (by decide)

/-- C3: for every integer d in [1, 365] and any perturbation draws in
[-5, 5), `get_consumption(d)` returns exactly d daily entries with day
indices 1..d in order, each kwh equal to setpoint * 1.2 plus the day's
perturbation, floored at zero and rounded to two decimals (hence
nonnegative); for non-integer d or d outside [1, 365] it fails with a
validation error. -/
theorem get_consumption_spec (s : ℤ) (noise : ℕ → ℚ)
    (hn : ∀ i, -5 ≤ noise i ∧ noise i < 5) :
    (∀ d : ℤ, 1 ≤ d → d ≤ 365 →
      ∃ r : ConsumptionResult,
        get_consumption s (.int d) noise = .ok r ∧
        (r.daily_consumption.length : ℤ) = d ∧
        (∀ i : ℕ, ∀ hi : i < r.daily_consumption.length,
          (r.daily_consumption.get ⟨i, hi⟩).day = (i : ℤ) + 1 ∧
          (r.daily_consumption.get ⟨i, hi⟩).kwh =
            pyRound (max 0 ((s : ℚ) * (12/10) + noise i)) 2 ∧
          0 ≤ (r.daily_consumption.get ⟨i, hi⟩).kwh)) ∧
    (∀ v : PyValue, (∀ t : ℤ, v = .int t → t < 1 ∨ 365 < t) →
      ∃ e, get_consumption s v noise = .error e) := by
  constructor
  · intro d hd1 hd2
    have hcond : ¬(d < 1 ∨ d > 365) := by omega
    have h : get_consumption s (.int d) noise = .ok
        { days := d,
          daily_consumption := (List.range d.toNat).map
            (fun i : ℕ => { day := (i : ℤ) + 1, kwh := dailyKwh s (noise i) }),
          total_kwh := pyRound (((List.range d.toNat).map
            (fun i : ℕ => ({ day := (i : ℤ) + 1, kwh := dailyKwh s (noise i) } :
              DailyEntry))).map (fun e => e.kwh)).sum 2,
          average_kwh_per_day := pyRound ((((List.range d.toNat).map
            (fun i : ℕ => ({ day := (i : ℤ) + 1, kwh := dailyKwh s (noise i) } :
              DailyEntry))).map (fun e => e.kwh)).sum / (d : ℚ)) 2 } := by
      simp only [get_consumption, if_neg hcond]
    refine ⟨_, h, ?_, ?_⟩
    · simp only [List.length_map, List.length_range]
      omega
    · intro i hi
      refine ⟨?_, ?_, ?_⟩
      · simp [List.get_eq_getElem, List.getElem_map, List.getElem_range]
      · simp only [List.get_eq_getElem, List.getElem_map, List.getElem_range]
        rw [dailyKwh, max_zero_pyRound]
      · simp only [List.get_eq_getElem, List.getElem_map, List.getElem_range]
        exact le_max_left 0 _
  · intro v hv
    cases v with
    | int t =>
      have ht : t < 1 ∨ 365 < t := hv t rfl
      have hcond : t < 1 ∨ t > 365 := ht
      exact ⟨"Days must be between 1 and 365",
        by simp only [get_consumption, if_pos hcond]⟩
    | other str => exact ⟨"Days must be an integer", rfl⟩

/-- Witness for C3: setpoint 20, zero perturbations. -/
theorem get_consumption_spec_witness :
    (∀ i : ℕ, -5 ≤ (fun _ : ℕ => (0 : ℚ)) i ∧ (fun _ : ℕ => (0 : ℚ)) i < 5) ∧
    ((∀ d : ℤ, 1 ≤ d → d ≤ 365 →
      ∃ r : ConsumptionResult,
        get_consumption 20 (.int d) (fun _ : ℕ => (0 : ℚ)) = .ok r ∧
        (r.daily_consumption.length : ℤ) = d ∧
        (∀ i : ℕ, ∀ hi : i < r.daily_consumption.length,
          (r.daily_consumption.get ⟨i, hi⟩).day = (i : ℤ) + 1 ∧
          (r.daily_consumption.get ⟨i, hi⟩).kwh =
            pyRound (max 0 ((20 : ℚ) * (12/10) + (fun _ : ℕ => (0 : ℚ)) i)) 2 ∧
          0 ≤ (r.daily_consumption.get ⟨i, hi⟩).kwh)) ∧
    (∀ v : PyValue, (∀ t : ℤ, v = .int t → t < 1 ∨ 365 < t) →
      ∃ e, get_consumption 20 v (fun _ : ℕ => (0 : ℚ)) = .error e)) :=
  ⟨fun i => by norm_num, get_consumption_spec 20 (fun _ => 0) (fun i => by norm_num)⟩

/-- Each daily kWh value, scaled by 100, is an integer. -/
theorem dailyKwh_mul_100 (s : ℤ) (ε : ℚ) :
    ∃ n : ℤ, dailyKwh s ε * 100 = (n : ℚ) := by
  refine ⟨max 0 (roundHalfEven (((s : ℚ) * (12/10) + ε) * (10 : ℚ) ^ (2 : ℕ))), ?_⟩
  unfold dailyKwh pyRound
  push_cast
  rw [max_mul_of_nonneg _ _ (by norm_num : (0 : ℚ) ≤ 100)]
  norm_num

/-- A sum of rationals that are integers when scaled by 100 is itself an
integer when scaled by 100. -/
theorem sum_mul_100 (l : List ℚ) (h : ∀ x ∈ l, ∃ n : ℤ, x * 100 = (n : ℚ)) :
    ∃ n : ℤ, l.sum * 100 = (n : ℚ) := by
  induction l with
  | nil => exact ⟨0, by simp⟩
  | cons a rest ih =>
    obtain ⟨m, hm⟩ := h a (List.mem_cons_self a rest)
    obtain ⟨n, hn⟩ := ih (fun x hx => h x (List.mem_cons_of_mem a hx))
    refine ⟨m + n, ?_⟩
    rw [List.sum_cons, add_mul, hm, hn]
    push_cast
    ring

/-- C4: in every successful `get_consumption(d)` result, `total_kwh` equals
the sum of the returned daily kwh entries rounded to two decimals, and
`average_kwh_per_day` equals `total_kwh / d` rounded to two decimals: over
exact rationals the rounded `total_kwh` coincides with the unrounded sum the
code divides, because every entry is a multiple of 1/100. -/
theorem get_consumption_totals (s d : ℤ) (noise : ℕ → ℚ)
    (r : ConsumptionResult) (h : get_consumption s (.int d) noise = .ok r) :
    r.total_kwh = pyRound ((r.daily_consumption.map (fun e => e.kwh)).sum) 2 ∧
    r.average_kwh_per_day = pyRound (r.total_kwh / (d : ℚ)) 2 := by
  simp only [get_consumption] at h
  split_ifs at h with hc
  rw [Except.ok.injEq] at h
  subst h
  have hsum : ∃ n : ℤ,
      ((((List.range d.toNat).map
        (fun i : ℕ => ({ day := (i : ℤ) + 1, kwh := dailyKwh s (noise i) } :
          DailyEntry))).map (fun e => e.kwh)).sum) * 100 = (n : ℚ) := by
    apply sum_mul_100
    intro x hx
    simp only [List.mem_map, List.mem_range] at hx
    obtain ⟨e, ⟨i, hi, rfl⟩, rfl⟩ := hx
    exact dailyKwh_mul_100 s (noise i)
  obtain ⟨n, hn⟩ := hsum
  have hfix : pyRound ((((List.range d.toNat).map
      (fun i : ℕ => ({ day := (i : ℤ) + 1, kwh := dailyKwh s (noise i) } :
        DailyEntry))).map (fun e => e.kwh)).sum) 2 =
      (((List.range d.toNat).map
        (fun i : ℕ => ({ day := (i : ℤ) + 1, kwh := dailyKwh s (noise i) } :
          DailyEntry))).map (fun e => e.kwh)).sum := by
    apply pyRound_eq_self n
    rw [show ((10 : ℚ) ^ (2 : ℕ)) = 100 by norm_num]
    exact hn
  constructor
  · rfl
  · show pyRound _ 2 = pyRound (pyRound _ 2 / (d : ℚ)) 2
    rw [hfix]

/-- Witness for C4: one day at setpoint 20 with zero perturbation. -/
theorem get_consumption_totals_witness :
    (get_consumption 20 (.int 1) (fun _ : ℕ => (0 : ℚ)) = .ok
      { days := 1, daily_consumption := [{ day := 1, kwh := 24 }],
        total_kwh := 24, average_kwh_per_day := 24 }) ∧
    ((24 : ℚ) = pyRound (([({ day := 1, kwh := 24 } : DailyEntry)].map
        (fun e => e.kwh)).sum) 2 ∧
     (24 : ℚ) = pyRound ((24 : ℚ) / ((1 : ℤ) : ℚ)) 2) := by
  have heval : get_consumption 20 (.int 1) (fun _ : ℕ => (0 : ℚ)) = .ok
      { days := 1, daily_consumption := [{ day := 1, kwh := 24 }],
        total_kwh := 24, average_kwh_per_day := 24 } := by
    norm_num [get_consumption, dailyKwh, pyRound, roundHalfEven,
      List.range_succ, List.range_zero]
  exact ⟨heval, get_consumption_totals 20 1 (fun _ => 0) _ heval⟩

/-! ## Claims about the weather service -/

/-- C5: with no configured server-side key every lookup fails with HTTP 500
regardless of the supplied key; with a configured key, a mismatched supplied
key fails with HTTP 401, and a matching key succeeds (HTTP 200) with a
temperature in [-10, -4]. -/
theorem weather_auth_spec (expected supplied location : String) (u : ℚ)
    (hu : -10 ≤ u ∧ u < -4) :
    (expected = "" →
      get_weather expected supplied location u =
        .error { status_code := 500, detail := "API key not configured" }) ∧
    (expected ≠ "" → supplied ≠ expected →
      get_weather expected supplied location u =
        .error { status_code := 401, detail := "Invalid API key" }) ∧
    (expected ≠ "" → supplied = expected →
      get_weather expected supplied location u =
        .ok { location := location, temperature := pyRound u 1,
              description := "Sunny and clear skies" } ∧
      -10 ≤ pyRound u 1 ∧ pyRound u 1 ≤ -4) := by
  refine ⟨?_, ?_, ?_⟩
  · intro he
    simp [get_weather, verify_api_key, he]
  · intro he hs
    simp [get_weather, verify_api_key, he, hs]
  · intro he hs
    refine ⟨by simp [get_weather, verify_api_key, he, hs], ?_, ?_⟩
    · have := intCast_le_pyRound (n := -10) (q := u) 1 (by exact_mod_cast hu.1)
      exact_mod_cast this
    · have := pyRound_le_intCast (n := -4) (q := u) 1 (by exact_mod_cast hu.2)
      exact_mod_cast this

/-- Witness for C5: configured key "secret", matching supplied key,
draw -7. -/
theorem weather_auth_spec_witness :
    (-10 ≤ (-7 : ℚ) ∧ (-7 : ℚ) < -4) ∧
    ((("secret" : String) = "" →
      get_weather "secret" "secret" "Oslo" (-7) =
        .error { status_code := 500, detail := "API key not configured" }) ∧
    (("secret" : String) ≠ "" → ("secret" : String) ≠ "secret" →
      get_weather "secret" "secret" "Oslo" (-7) =
        .error { status_code := 401, detail := "Invalid API key" }) ∧
    (("secret" : String) ≠ "" → ("secret" : String) = "secret" →
      get_weather "secret" "secret" "Oslo" (-7) =
        .ok { location := "Oslo", temperature := pyRound (-7) 1,
              description := "Sunny and clear skies" } ∧
      -10 ≤ pyRound (-7 : ℚ) 1 ∧ pyRound (-7 : ℚ) 1 ≤ -4)) :=
  ⟨by norm_num, weather_auth_spec "secret" "secret" "Oslo" (-7) (by norm_num)⟩

/-- Counterexample to C6 as stated: at a concrete successful request the
returned description is "Sunny and clear skies" (capital S), not the claimed
"sunny and clear skies". -/
theorem weather_description_counterexample :
    get_weather "secret" "secret" "Oslo" (-7) =
      .ok { location := "Oslo", temperature := -7,
            description := "Sunny and clear skies" } ∧
    ("Sunny and clear skies" : String) ≠ "sunny and clear skies" := by
  constructor
  · norm_num [get_weather, verify_api_key, pyRound, roundHalfEven,
      show ¬("secret" : String) = "" from by decide]
  · decide

/-- C6 (amended): every successful weather lookup echoes the request's
location, returns the uniform draw from [-10, -4) rounded to one decimal as
temperature, and the fixed description "Sunny and clear skies" (the code
capitalizes the first word). -/
theorem get_weather_success_fields (expected supplied location : String)
    (u : ℚ) (resp : WeatherResponse) (hu : -10 ≤ u ∧ u < -4)
    (h : get_weather expected supplied location u = .ok resp) :
    resp.location = location ∧ resp.temperature = pyRound u 1 ∧
    resp.description = "Sunny and clear skies" := by
  simp only [get_weather, verify_api_key] at h
  split_ifs at h with h1 h2
  rw [Except.ok.injEq] at h
  subst h
  exact ⟨rfl, rfl, rfl⟩

/-- Witness for C6 (amended): concrete successful request with draw -7. -/
theorem get_weather_success_fields_witness :
    (-10 ≤ (-7 : ℚ) ∧ (-7 : ℚ) < -4) ∧
    (get_weather "secret" "secret" "Oslo" (-7) =
      .ok { location := "Oslo", temperature := -7,
            description := "Sunny and clear skies" }) ∧
    (({ location := "Oslo", temperature := -7,
        description := "Sunny and clear skies" } : WeatherResponse).location
        = "Oslo" ∧
     ({ location := "Oslo", temperature := -7,
        description := "Sunny and clear skies" } : WeatherResponse).temperature
        = pyRound (-7) 1 ∧
     ({ location := "Oslo", temperature := -7,
        description := "Sunny and clear skies" } : WeatherResponse).description
        = "Sunny and clear skies") := by
  have heval : get_weather "secret" "secret" "Oslo" (-7) =
      .ok { location := "Oslo", temperature := -7,
            description := "Sunny and clear skies" } := by
    norm_num [get_weather, verify_api_key, pyRound, roundHalfEven,
      show ¬("secret" : String) = "" from by decide]
  exact ⟨by norm_num, heval,
    get_weather_success_fields "secret" "secret" "Oslo" (-7) _ (by norm_num) heval⟩

/-- C10: the returned temperature and description do not depend on the
request's location: two authenticated requests sharing the random draw get
identical temperature and description, and each echoes its own location. -/
theorem weather_location_independence (expected supplied loc1 loc2 : String)
    (u : ℚ) (r1 r2 : WeatherResponse)
    (h1 : get_weather expected supplied loc1 u = .ok r1)
    (h2 : get_weather expected supplied loc2 u = .ok r2) :
    r1.temperature = r2.temperature ∧ r1.description = r2.description ∧
    r1.location = loc1 ∧ r2.location = loc2 := by
  simp only [get_weather, verify_api_key] at h1 h2
  split_ifs at h1 h2 with ha hb
  rw [Except.ok.injEq] at h1 h2
  subst h1
  subst h2
  exact ⟨rfl, rfl, rfl, rfl⟩

/-- Witness for C10: same key and draw, locations "Oslo" and "Paris". -/
theorem weather_location_independence_witness :
    (get_weather "secret" "secret" "Oslo" (-7) =
      .ok { location := "Oslo", temperature := -7,
            description := "Sunny and clear skies" }) ∧
    (get_weather "secret" "secret" "Paris" (-7) =
      .ok { location := "Paris", temperature := -7,
            description := "Sunny and clear skies" }) ∧
    ((-7 : ℚ) = -7 ∧ ("Sunny and clear skies" : String) = "Sunny and clear skies" ∧
     ("Oslo" : String) = "Oslo" ∧ ("Paris" : String) = "Paris") := by
  have e1 : get_weather "secret" "secret" "Oslo" (-7) =
      .ok { location := "Oslo", temperature := -7,
            description := "Sunny and clear skies" } := by
    norm_num [get_weather, verify_api_key, pyRound, roundHalfEven,
      show ¬("secret" : String) = "" from by decide]
  have e2 : get_weather "secret" "secret" "Paris" (-7) =
      .ok { location := "Paris", temperature := -7,
            description := "Sunny and clear skies" } := by
    norm_num [get_weather, verify_api_key, pyRound, roundHalfEven,
      show ¬("secret" : String) = "" from by decide]
  exact ⟨e1, e2,
    weather_location_independence "secret" "secret" "Oslo" "Paris" (-7) _ _ e1 e2⟩

/-! ## Claims about the telemetry simulator -/

/-- C7: each iteration generates readings for exactly the three configured
rooms with their preset baselines (kitchen 22.0/50, livingroom 21.5/48,
bedroom 20.0/52): temperature is the base temperature plus the uniform draw
in [-2, 2] rounded to one decimal, humidity the base humidity plus the
uniform draw in [-5, 5] rounded to one decimal, and the room's name is
carried in the record. -/
theorem mainIteration_telemetry (put : String → Except String String)
    (draws : String → ℚ × ℚ) (now : String)
    (hd : ∀ room : String, -2 ≤ (draws room).1 ∧ (draws room).1 ≤ 2 ∧
      -5 ≤ (draws room).2 ∧ (draws room).2 ≤ 5) :
    (mainIteration put draws now).map (fun p => p.1) =
      [{ room := "kitchen",
         temperature := pyRound (22 + (draws "kitchen").1) 1,
         humidity := pyRound (50 + (draws "kitchen").2) 1,
         time_recorded := now },
       { room := "livingroom",
         temperature := pyRound (215/10 + (draws "livingroom").1) 1,
         humidity := pyRound (48 + (draws "livingroom").2) 1,
         time_recorded := now },
       { room := "bedroom",
         temperature := pyRound (20 + (draws "bedroom").1) 1,
         humidity := pyRound (52 + (draws "bedroom").2) 1,
         time_recorded := now }] := by
  simp [mainIteration, ROOMS, generate_telemetry]

/-- Witness for C7: zero draws, all sends succeeding. -/
theorem mainIteration_telemetry_witness :
    (∀ room : String,
      -2 ≤ ((fun _ : String => ((0 : ℚ), (0 : ℚ))) room).1 ∧
      ((fun _ : String => ((0 : ℚ), (0 : ℚ))) room).1 ≤ 2 ∧
      -5 ≤ ((fun _ : String => ((0 : ℚ), (0 : ℚ))) room).2 ∧
      ((fun _ : String => ((0 : ℚ), (0 : ℚ))) room).2 ≤ 5) ∧
    (mainIteration (fun _ => .ok "rid") (fun _ : String => ((0 : ℚ), (0 : ℚ)))
        "2026-01-01T00:00:00+00:00").map (fun p => p.1) =
      [{ room := "kitchen", temperature := pyRound (22 + 0) 1,
         humidity := pyRound (50 + 0) 1,
         time_recorded := "2026-01-01T00:00:00+00:00" },
       { room := "livingroom", temperature := pyRound (215/10 + 0) 1,
         humidity := pyRound (48 + 0) 1,
         time_recorded := "2026-01-01T00:00:00+00:00" },
       { room := "bedroom", temperature := pyRound (20 + 0) 1,
         humidity := pyRound (52 + 0) 1,
         time_recorded := "2026-01-01T00:00:00+00:00" }] :=
  ⟨fun room => by norm_num,
   mainIteration_telemetry (fun _ => .ok "rid")
     (fun _ : String => ((0 : ℚ), (0 : ℚ))) "2026-01-01T00:00:00+00:00"
     (fun room => by norm_num)⟩

/-- C8: a failed send never prevents the remaining rooms from being
processed: `send_to_firehose` turns every exception into the failure report
`none` instead of propagating, and for every possible pattern of per-room
send outcomes the iteration still produces a result for all three rooms, in
order. -/
theorem send_failure_does_not_block (put : String → Except String String)
    (draws : String → ℚ × ℚ) (now : String) :
    (∀ e : String, send_to_firehose (.error e) = none) ∧
    (mainIteration put draws now).length = ROOMS.length ∧
    (mainIteration put draws now).map (fun p => p.1.room) =
      ["kitchen", "livingroom", "bedroom"] := by
  refine ⟨fun e => rfl, ?_, ?_⟩
  · simp [mainIteration]
  · simp [mainIteration, ROOMS, generate_telemetry]

end HouseSim
